import Mathlib

/-!
Shallow embedding of the payment verification and idempotency core of the
`sf2` payment backend (`src/server.js`, with the two historical route-handler
variants in `src/unnamed/`).  Pure JS helpers become Lean functions; the
stateful route handlers become explicit state-passing functions over the
in-memory lock set, the transactions ledger, the verification log and the
success-token store.  External effects (the Razorpay status API, the Google
Sheet audit sink, the internal HTTP hop from the callback to `/verify_payment`)
are supplied as explicit parameters describing their outcome.
-/

set_option maxRecDepth 4000

namespace SF2

/-! ## SHA-256 and HMAC-SHA256 over byte lists

`/verify_payment` recomputes `hex(HMAC_SHA256(secret, order_id + "|" +
payment_id))` via node's `crypto.createHmac('sha256', ...)`.  We implement
SHA-256 (FIPS 180-4) over `List Nat` bytes, with 32-bit words as `Nat`
reduced mod `2^32`, so the digest is computable inside Lean. -/

/-- The 32-bit modulus. -/
def M32 : Nat := 4294967296

/-- Addition modulo `2^32`. -/
def add32 (a b : Nat) : Nat := (a + b) % M32

/-- Right rotation of a 32-bit word. -/
def rotr32 (n x : Nat) : Nat := ((x >>> n) ||| (x <<< (32 - n))) % M32

/-- Logical right shift (on a 32-bit word it never overflows). -/
def shr32 (n x : Nat) : Nat := x >>> n

/-- Bitwise complement within 32 bits. -/
def not32 (x : Nat) : Nat := Nat.xor x (M32 - 1)

/-- SHA-256 `Ch` function. -/
def ch32 (e f g : Nat) : Nat := Nat.xor (Nat.land e f) (Nat.land (not32 e) g)

/-- SHA-256 `Maj` function. -/
def maj32 (a b c : Nat) : Nat :=
  Nat.xor (Nat.xor (Nat.land a b) (Nat.land a c)) (Nat.land b c)

/-- SHA-256 small sigma 0 (message schedule). -/
def smallSig0 (x : Nat) : Nat := Nat.xor (Nat.xor (rotr32 7 x) (rotr32 18 x)) (shr32 3 x)

/-- SHA-256 small sigma 1 (message schedule). -/
def smallSig1 (x : Nat) : Nat := Nat.xor (Nat.xor (rotr32 17 x) (rotr32 19 x)) (shr32 10 x)

/-- SHA-256 big sigma 0 (round function). -/
def bigSig0 (x : Nat) : Nat :=
  Nat.xor (Nat.xor (rotr32 2 x) (rotr32 13 x)) (rotr32 22 x)

/-- SHA-256 big sigma 1 (round function). -/
def bigSig1 (x : Nat) : Nat :=
  Nat.xor (Nat.xor (rotr32 6 x) (rotr32 11 x)) (rotr32 25 x)

/-- The 64 SHA-256 round constants (FIPS 180-4 section 4.2.2, written in
decimal). -/
def K256 : List Nat :=
  [1116352408, 1899447441, 3049323471, 3921009573, 961987163, 1508970993,
   2453635748, 2870763221, 3624381080, 310598401, 607225278, 1426881987,
   1925078388, 2162078206, 2614888103, 3248222580, 3835390401, 4022224774,
   264347078, 604807628, 770255983, 1249150122, 1555081692, 1996064986,
   2554220882, 2821834349, 2952996808, 3210313671, 3336571891, 3584528711,
   113926993, 338241895, 666307205, 773529912, 1294757372, 1396182291,
   1695183700, 1986661051, 2177026350, 2456956037, 2730485921, 2820302411,
   3259730800, 3345764771, 3516065817, 3600352804, 4094571909, 275423344,
   430227734, 506948616, 659060556, 883997877, 958139571, 1322822218,
   1537002063, 1747873779, 1955562222, 2024104815, 2227730452, 2361852424,
   2428436474, 2756734187, 3204031479, 3329325298]

/-- Working state of one SHA-256 compression. -/
structure Sha256State where
  a : Nat
  b : Nat
  c : Nat
  d : Nat
  e : Nat
  f : Nat
  g : Nat
  hh : Nat
deriving Repr, DecidableEq

/-- The SHA-256 initial hash value (FIPS 180-4 section 5.3.3, in decimal). -/
def initHash : Sha256State :=
  ⟨1779033703, 3144134277, 1013904242, 2773480762,
   1359893119, 2600822924, 528734635, 1541459225⟩

/-- One SHA-256 round, consuming a `(round constant, schedule word)` pair. -/
def sha256Round (st : Sha256State) (kw : Nat × Nat) : Sha256State :=
  let t1 := add32 st.hh (add32 (bigSig1 st.e) (add32 (ch32 st.e st.f st.g) (add32 kw.1 kw.2)))
  let t2 := add32 (bigSig0 st.a) (maj32 st.a st.b st.c)
  ⟨add32 t1 t2, st.a, st.b, st.c, add32 st.d t1, st.e, st.f, st.g⟩

/-- Extend the 16 block words to the 64-entry message schedule. -/
def schedule256 (w0 : List Nat) : List Nat :=
  ((List.range 48).foldl
    (fun w t =>
      let i := t + 16
      let x := add32 (add32 (w.getD (i - 16) 0) (smallSig0 (w.getD (i - 15) 0)))
                     (add32 (w.getD (i - 7) 0) (smallSig1 (w.getD (i - 2) 0)))
      w.push x)
    w0.toArray).toList

/-- Compress one 512-bit block (16 words) into the running hash. -/
def compress256 (st : Sha256State) (blockWords : List Nat) : Sha256State :=
  let w := schedule256 blockWords
  let r := (K256.zip w).foldl sha256Round st
  ⟨add32 st.a r.a, add32 st.b r.b, add32 st.c r.c, add32 st.d r.d,
   add32 st.e r.e, add32 st.f r.f, add32 st.g r.g, add32 st.hh r.hh⟩

/-- Group a byte list into big-endian 32-bit words (drops a ragged tail;
after padding the length is a multiple of 4). -/
def words32 : List Nat → List Nat
  | b0 :: b1 :: b2 :: b3 :: rest =>
      (((b0 * 256 + b1) * 256 + b2) * 256 + b3) :: words32 rest
  | _ => []

/-- Group a word list into 16-word blocks (drops a ragged tail; after
padding the length is a multiple of 16). -/
def blocks16 : List Nat → List (List Nat)
  | w0 :: w1 :: w2 :: w3 :: w4 :: w5 :: w6 :: w7 ::
    w8 :: w9 :: w10 :: w11 :: w12 :: w13 :: w14 :: w15 :: rest =>
      [w0, w1, w2, w3, w4, w5, w6, w7, w8, w9, w10, w11, w12, w13, w14, w15]
        :: blocks16 rest
  | _ => []

/-- A natural written as `k` big-endian bytes. -/
def natBytesBE (k v : Nat) : List Nat :=
  (List.range k).map (fun i => (v >>> (8 * (k - 1 - i))) % 256)

/-- SHA-256 padding for a message of `len` bytes. -/
def sha256Padding (len : Nat) : List Nat :=
  0x80 :: List.replicate ((119 - len % 64) % 64) 0 ++ natBytesBE 8 (len * 8)

/-- SHA-256 of a byte list, as the 32 digest bytes. -/
def sha256 (msg : List Nat) : List Nat :=
  let padded := msg ++ sha256Padding msg.length
  let st := (blocks16 (words32 padded)).foldl compress256 initHash
  natBytesBE 4 st.a ++ natBytesBE 4 st.b ++ natBytesBE 4 st.c ++ natBytesBE 4 st.d ++
  natBytesBE 4 st.e ++ natBytesBE 4 st.f ++ natBytesBE 4 st.g ++ natBytesBE 4 st.hh

/-- HMAC-SHA256 (RFC 2104) of a message under a key, as 32 digest bytes. -/
def hmacSha256 (key msg : List Nat) : List Nat :=
  let k0 := if 64 < key.length then sha256 key else key
  let kp := k0 ++ List.replicate (64 - k0.length) 0
  let inner := sha256 (kp.map (fun b => Nat.xor b 0x36) ++ msg)
  sha256 (kp.map (fun b => Nat.xor b 0x5c) ++ inner)

/-- Lower-case hex digit for a value below 16. -/
def hexDigit (n : Nat) : Char :=
  if n < 10 then Char.ofNat (48 + n) else Char.ofNat (87 + n)

/-- Lower-case hex encoding of a byte list (node's `.digest('hex')`). -/
def bytesToHex (bs : List Nat) : String :=
  String.mk (bs.foldr (fun b acc => hexDigit (b / 16) :: hexDigit (b % 16) :: acc) [])

/-- Code points of a string; agrees with its UTF-8 bytes on the ASCII
strings the handlers hash. -/
def strBytes (s : String) : List Nat := s.data.map Char.toNat

/-- The signature `/verify_payment` recomputes (`server.js` lines 159-163):
`crypto.createHmac('sha256', secret).update(order_id + "|" + payment_id).digest('hex')`. -/
def generatedSignature (secret order_id payment_id : String) : String :=
  bytesToHex (hmacSha256 (strBytes secret) (strBytes (order_id ++ "|" ++ payment_id)))

/-! ## Data model

The ledger rows live in the `transactions` sheet behind the audit sink; the
verification log rows in the `verification_logs` sheet; the concurrency gate
is the in-process `processingPayments` set; the success tokens live in
`global.successTokens` (absent until first initialised). -/

/-- Transaction status as written by the handlers. -/
inductive TxStatus where
  | SUCCESS
  | FAILED
deriving Repr, DecidableEq

/-- One row of the `transactions` sheet (the fields the core logic reads). -/
structure Txn where
  order_id : String
  payment_id : String
  status : TxStatus
  amount : Nat
  method : String
deriving Repr, DecidableEq

/-- The durable transactions ledger, as the append-only list of rows. -/
abbrev Ledger := List Txn

/-- One row of the `verification_logs` sheet (the fields the core writes). -/
structure VLogEntry where
  step : String
  order_id : String
  payment_id : String
  signature_matched : Option Bool
  razorpay_status : Option String
deriving Repr, DecidableEq

/-- The audit verification log. -/
abbrev VLog := List VLogEntry

/-- The in-process `processingPayments` lock set. -/
abbrev Gate := List String

/-- Payload of a stored success token (`global.successTokens[token]`). -/
structure TokenData where
  order_id : String
  payment_id : String
  amount : Nat
  expires : Nat
deriving Repr, DecidableEq

/-- The token map; `none` models `global.successTokens` never initialised. -/
abbrev TokenMap := List (String × TokenData)
abbrev TokenStore := Option TokenMap

/-- Lookup of `global.successTokens[ref]`. -/
def lookupToken (m : TokenMap) (r : String) : Option TokenData :=
  (m.find? (fun kv => kv.1 == r)).map Prod.snd

/-- JS `delete global.successTokens[ref]`. -/
def eraseToken (m : TokenMap) (r : String) : TokenMap :=
  m.filter (fun kv => kv.1 != r)

/-- JS `global.successTokens[token] = data` (overwrite semantics). -/
def insertToken (m : TokenMap) (r : String) (d : TokenData) : TokenMap :=
  (r, d) :: eraseToken m r

/-- The payload `/v1/payments/:id` answers with (the fields the core reads). -/
structure GatewayPayment where
  status : String
  amount : Nat
  method : String
deriving Repr, DecidableEq

/-! ## Audit sink and idempotency ledger helpers -/

/-- Does row `t` count as a committed SUCCESS for the pair `(o, p)`? -/
def isSuccessFor (o p : String) (t : Txn) : Bool :=
  t.order_id == o && t.payment_id == p && t.status == TxStatus.SUCCESS

/-- Modelled from the spec: the `check_only` lookup served by the audit sink
behind `GSHEET_LOG_URL` is not part of this repository; per the spec's
Idempotency Ledger contract it answers "true iff a SUCCESS transaction
already exists for this pair". -/
def successExists (ledger : Ledger) (o p : String) : Bool :=
  ledger.any (isSuccessFor o p)

/-- Number of committed SUCCESS rows for a pair. -/
def countSuccessRows (ledger : Ledger) (o p : String) : Nat :=
  (ledger.filter (isSuccessFor o p)).length

/-- `logToGoogleSheet` (`server.js` lines 45-56): posts one row to the sheet;
every error is caught and swallowed, so on sink failure the row is simply not
appended and the caller proceeds normally.  `sinkOk` says whether the post
succeeded. -/
def logToGoogleSheet {α : Type} (sinkOk : Bool) (rows : List α) (row : α) : List α :=
  if sinkOk then rows ++ [row] else rows

/-- `isPaymentAlreadyProcessed` (`server.js` lines 272-285; its only
definition in the file is inside a comment block, but the live handlers call
it at lines 60, 155 and 449): asks the sink whether the pair exists; on any
error of that call it catches and returns `false` ("fail-safe: allow once").
`remoteOk` says whether the check call succeeded. -/
def isPaymentAlreadyProcessed (remoteOk : Bool) (ledger : Ledger) (o p : String) : Bool :=
  if remoteOk then successExists ledger o p else false

/-- `saveTransaction` (`server.js` lines 58-80): for a SUCCESS row, first ask
the ledger whether the pair is already processed and drop the insert if so;
then append the row via the audit sink. -/
def saveTransaction (remoteOk sinkOk : Bool) (ledger : Ledger) (tx : Txn) : Ledger :=
  if tx.status == TxStatus.SUCCESS &&
     isPaymentAlreadyProcessed remoteOk ledger tx.order_id tx.payment_id then
    ledger
  else
    logToGoogleSheet sinkOk ledger tx

/-- `saveVerificationLog` (`server.js` lines 82-96): one row to the
`verification_logs` sheet via the audit sink. -/
def saveVerificationLog (sinkOk : Bool) (vlog : VLog) (entry : VLogEntry) : VLog :=
  logToGoogleSheet sinkOk vlog entry

/-! ## The `/verify_payment` handler (`server.js` lines 150-235) -/

/-- The JSON verdict (plus HTTP status) `/verify_payment` answers with. -/
structure VerifyOutcome where
  httpStatus : Nat
  valid : Bool
  reason : Option String
  payment : Option GatewayPayment
deriving Repr, DecidableEq

/-- The duplicate verdict (line 157). -/
def dupVerdict : VerifyOutcome := ⟨200, false, some "Payment already processed", none⟩

/-- The signature-mismatch verdict (lines 180-185). -/
def mismatchVerdict : VerifyOutcome := ⟨200, false, some "Signature mismatch", none⟩

/-- The not-captured verdict (lines 209-214). -/
def notCapturedVerdict : VerifyOutcome := ⟨200, false, some "Payment not captured", none⟩

/-- The status-API-failure verdict (lines 230-233). -/
def statusFailedVerdict : VerifyOutcome := ⟨500, false, some "Status API failed", none⟩

/-- `/verify_payment`: duplicate pre-check, HMAC signature check (logged),
then the Razorpay status inquiry (logged), answering `valid` only on
`status === "captured"`.  `gw` is the outcome of the status API call
(`Except.error` models a thrown request).  Returns the verdict and the new
verification log; the handler never writes the transactions ledger. -/
def verify_payment (secret : String) (remoteOk sinkOk : Bool)
    (gw : Except Unit GatewayPayment)
    (order_id payment_id sig : String)
    (ledger : Ledger) (vlog : VLog) : VerifyOutcome × VLog :=
  if isPaymentAlreadyProcessed remoteOk ledger order_id payment_id then
    (dupVerdict, vlog)
  else
    let generated := generatedSignature secret order_id payment_id
    let matched := generated == sig
    let vlog1 := saveVerificationLog sinkOk vlog
      ⟨"SIGNATURE_VERIFICATION", order_id, payment_id, some matched, none⟩
    if !matched then
      (mismatchVerdict, vlog1)
    else
      match gw with
      | .error _ =>
          (statusFailedVerdict,
           saveVerificationLog sinkOk vlog1
             ⟨"STATUS_API_ERROR", order_id, payment_id, none, none⟩)
      | .ok pay =>
          let vlog2 := saveVerificationLog sinkOk vlog1
            ⟨"STATUS_API", order_id, payment_id, none, some pay.status⟩
          if pay.status != "captured" then
            (notCapturedVerdict, vlog2)
          else
            (⟨200, true, none, some pay⟩, vlog2)

/-! ## The `/payment_callback` handler (`server.js` lines 423-506) -/

/-- The responses the live callback handler can produce. -/
inductive CallbackResponse where
  /-- 400 "Missing parameters" (line 436). -/
  | missingParams
  /-- 409 "Duplicate request blocked" — gate busy (line 442). -/
  | duplicateBlocked
  /-- 409 "Duplicate payment ignored" — ledger says processed (line 455). -/
  | duplicateIgnored
  /-- 400 "Verification failed" (line 468). -/
  | verificationFailed
  /-- 302 redirect to `payment_success.html?ref=token` (lines 494-496). -/
  | successRedirect (token : String)
  /-- 500 "Server error" — the catch block (line 500). -/
  | serverError
deriving Repr, DecidableEq

/-- State touched by one callback request, as returned by the handler. -/
structure CallbackResult where
  response : CallbackResponse
  gate : Gate
  ledger : Ledger
  vlog : VLog
  tokens : TokenStore
deriving Repr, DecidableEq

/-- `/payment_callback`: parameter presence check, in-process gate on
`payment_id`, ledger duplicate check, internal HTTP call to
`/verify_payment`, SUCCESS commit via `saveTransaction`, token mint, redirect.
`params` is `none` when any of the three callback fields is missing (the
fail-fast at line 435); `verifyNetOk` is the wire outcome of the internal
axios POST (axios also throws on a non-2xx response such as verify's 500);
`remoteOkCb`, `remoteOkVp`, `remoteOkSave` are the outcomes of the three
separate duplicate-check calls (the handler's own, the one inside
`/verify_payment`, the one inside `saveTransaction`); `freshToken` the token
`crypto.randomBytes` produced; `now` the clock at token mint.  The `finally`
at line 503 removes `payment_id` from the gate on every path that acquired
it. -/
def payment_callback (secret : String)
    (remoteOkCb remoteOkVp remoteOkSave sinkOk verifyNetOk : Bool)
    (gw : Except Unit GatewayPayment)
    (params : Option (String × String × String))
    (freshToken : String) (now : Nat)
    (gate : Gate) (ledger : Ledger) (vlog : VLog) (tokens : TokenStore) :
    CallbackResult :=
  match params with
  | none => ⟨.missingParams, gate, ledger, vlog, tokens⟩
  | some (pid, oid, sig) =>
    if gate.contains pid then
      ⟨.duplicateBlocked, gate, ledger, vlog, tokens⟩
    else
      let gate1 := pid :: gate
      if isPaymentAlreadyProcessed remoteOkCb ledger oid pid then
        ⟨.duplicateIgnored, gate1.erase pid, ledger, vlog, tokens⟩
      else if !verifyNetOk then
        ⟨.serverError, gate1.erase pid, ledger, vlog, tokens⟩
      else
        let vp := verify_payment secret remoteOkVp sinkOk gw oid pid sig ledger vlog
        if vp.1.httpStatus != 200 then
          ⟨.serverError, gate1.erase pid, ledger, vp.2, tokens⟩
        else if !vp.1.valid then
          ⟨.verificationFailed, gate1.erase pid, ledger, vp.2, tokens⟩
        else
          match vp.1.payment with
          | none =>
              ⟨.serverError, gate1.erase pid, ledger, vp.2, tokens⟩
          | some pay =>
              let ledger1 := saveTransaction remoteOkSave sinkOk ledger
                ⟨oid, pid, TxStatus.SUCCESS, pay.amount / 100, pay.method⟩
              let tokens1 := insertToken (tokens.getD []) freshToken
                ⟨oid, pid, pay.amount / 100, now + 5 * 60 * 1000⟩
              ⟨.successRedirect freshToken, gate1.erase pid, ledger1, vp.2, some tokens1⟩

/-! ## The `/validate_success` handler (`server.js` lines 529-551) -/

/-- The JSON answer of `/validate_success`. -/
inductive ValidateResponse where
  /-- 403 `{valid: false}`. -/
  | notFound
  /-- 200 `{valid: true, order_id, payment_id, amount}`. -/
  | okData (order_id payment_id : String) (amount : Nat)
deriving Repr, DecidableEq

/-- `/validate_success`: redeem a success token.  `ref = none` models the
query parameter being absent; the JS guard `!ref` also fires on the empty
string.  An existing token is deleted on read — whether the read succeeds
(unexpired) or reports expiry. -/
def validate_success (tokens : TokenStore) (now : Nat) (ref : Option String) :
    ValidateResponse × TokenStore :=
  match ref with
  | none => (.notFound, tokens)
  | some r =>
    if r == "" then (.notFound, tokens)
    else
      match tokens with
      | none => (.notFound, none)
      | some m =>
        match lookupToken m r with
        | none => (.notFound, some m)
        | some d =>
          if d.expires < now then (.notFound, some (eraseToken m r))
          else (.okData d.order_id d.payment_id d.amount, some (eraseToken m r))

/-! ## Faithful JS property read for the token store

`global.successTokens` is a plain object literal, so the bracket read
`global.successTokens[ref]` in `/validate_success` walks the prototype
chain: for a never-minted `ref` naming an `Object.prototype` member
(`"toString"`, `"constructor"`, `"__proto__"`, ...) it yields a truthy
inherited value rather than `undefined`.  The definitions below model that
read exactly; `validate_success` above is its restriction to own-key
lookups, which is the domain the minted 32-hex-character tokens live in. -/

/-- Names that a bracket read finds, truthy, on every plain JS object
literal: the `Object.prototype` methods and the `__proto__` accessor. -/
def protoKeys : List String :=
  ["constructor", "hasOwnProperty", "isPrototypeOf", "propertyIsEnumerable",
   "toLocaleString", "toString", "valueOf", "__defineGetter__",
   "__defineSetter__", "__lookupGetter__", "__lookupSetter__", "__proto__"]

/-- Result of the JS bracket read `global.successTokens[ref]`. -/
inductive JsTokenRead where
  /-- An own property: the stored data of a minted token. -/
  | ownData (d : TokenData)
  /-- A truthy value inherited from `Object.prototype` (a function, or
  `Object.prototype` itself for `__proto__`); its `expires` member is
  `undefined`. -/
  | inherited
  /-- `undefined`: the name is neither an own key nor a prototype member. -/
  | undefinedValue
deriving Repr, DecidableEq

/-- The JS bracket read on the token map: own properties shadow the
prototype chain; absent names fall through to the inherited members. -/
def jsReadToken (m : TokenMap) (r : String) : JsTokenRead :=
  match lookupToken m r with
  | some d => .ownData d
  | none => if protoKeys.contains r then .inherited else .undefinedValue

/-- The JSON answer of `/validate_success` under the faithful read model. -/
inductive JsValidateResponse where
  /-- 403 `{valid: false}`. -/
  | notFound
  /-- 200 `{valid: true, order_id, payment_id, amount}` from a stored token. -/
  | okData (order_id payment_id : String) (amount : Nat)
  /-- 200 `{valid: true}` with `order_id`, `payment_id` and `amount` all
  `undefined` — produced when the guard passed on an inherited member. -/
  | okUndefined
deriving Repr, DecidableEq

/-- The `/validate_success` handler with the faithful JS bracket read.  On
an inherited member the guard `!global.successTokens[ref]` passes,
`data.expires` is `undefined` so `Date.now() > data.expires` is false (a
NaN comparison), the `delete` removes no own property, and the handler
answers `valid: true` with undefined fields. -/
def validate_success_js (tokens : TokenStore) (now : Nat) (ref : Option String) :
    JsValidateResponse × TokenStore :=
  match ref with
  | none => (.notFound, tokens)
  | some r =>
    if r == "" then (.notFound, tokens)
    else
      match tokens with
      | none => (.notFound, none)
      | some m =>
        match jsReadToken m r with
        | .undefinedValue => (.notFound, some m)
        | .ownData d =>
          if d.expires < now then (.notFound, some (eraseToken m r))
          else (.okData d.order_id d.payment_id d.amount, some (eraseToken m r))
        | .inherited => (.okUndefined, some (eraseToken m r))

/-! ## Helper lemmas -/

/-- The computed signature for the spec's concrete scenario, checked against
an independently computed HMAC-SHA256 digest. -/
theorem generatedSignature_concrete :
    generatedSignature "s3cret" "order_1" "pay_1"
      = "44422d618d76e6e81c5f002f4d5108385750b52eb8db4e9c7a4231ddfac02840" := by
  decide

/-- Appending one row changes the SUCCESS count for a pair by its own match. -/
theorem countSuccessRows_append (l : Ledger) (t : Txn) (o p : String) :
    countSuccessRows (l ++ [t]) o p
      = countSuccessRows l o p + (if isSuccessFor o p t then 1 else 0) := by
  simp only [countSuccessRows, List.filter_append, List.length_append]
  cases ht : isSuccessFor o p t <;> simp [List.filter, ht]

/-- If no SUCCESS row exists for a pair, the SUCCESS count is zero. -/
theorem countSuccessRows_eq_zero (l : Ledger) (o p : String)
    (h : successExists l o p = false) : countSuccessRows l o p = 0 := by
  simp only [successExists, List.any_eq_false] at h
  simp only [countSuccessRows, List.length_eq_zero]
  exact List.filter_eq_nil_iff.mpr h

/-- A valid verdict from `/verify_payment` can only arise from a gateway
answer whose status is `"captured"`, and then the verdict carries that
payment payload. -/
theorem verify_valid_captured (secret : String) (r s : Bool) (gw : Except Unit GatewayPayment)
    (o p g : String) (l : Ledger) (v : VLog)
    (h : (verify_payment secret r s gw o p g l v).1.valid = true) :
    ∃ pay, gw = Except.ok pay ∧ pay.status = "captured"
      ∧ (verify_payment secret r s gw o p g l v).1.payment = some pay := by
  by_cases hd : isPaymentAlreadyProcessed r l o p
  · simp [verify_payment, hd, dupVerdict] at h
  · cases hm : generatedSignature secret o p == g
    · simp [verify_payment, hd, hm, mismatchVerdict] at h
    · cases gw with
      | error e => simp [verify_payment, hd, hm, statusFailedVerdict] at h
      | ok pay =>
          by_cases hs : pay.status = "captured"
          · exact ⟨pay, rfl, hs, by simp [verify_payment, hd, hm, hs]⟩
          · simp [verify_payment, hd, hm, hs, notCapturedVerdict] at h

/-- The verdict of `/verify_payment` does not depend on the audit sink's
availability or on the verification log it starts from. -/
theorem verify_fst_congr (secret : String) (r s1 s2 : Bool) (gw : Except Unit GatewayPayment)
    (o p g : String) (l : Ledger) (v1 v2 : VLog) :
    (verify_payment secret r s1 gw o p g l v1).1 = (verify_payment secret r s2 gw o p g l v2).1 := by
  by_cases hd : isPaymentAlreadyProcessed r l o p
  · simp [verify_payment, hd]
  · cases hm : generatedSignature secret o p == g
    · simp [verify_payment, hd, hm]
    · cases gw with
      | error e => simp [verify_payment, hd, hm]
      | ok pay =>
          by_cases hs : pay.status = "captured" <;> simp [verify_payment, hd, hm, hs]

/-- If `/verify_payment` can never answer valid for the supplied gateway
outcome, a callback leaves the transactions ledger and the token store
untouched. -/
theorem payment_callback_no_commit (secret : String) (rCb rVp rSave sOk vNet : Bool)
    (gw : Except Unit GatewayPayment) (params : Option (String × String × String))
    (tok : String) (now : Nat) (gate : Gate) (ledger : Ledger) (vlog : VLog)
    (tokens : TokenStore)
    (hval : ∀ o p g, (verify_payment secret rVp sOk gw o p g ledger vlog).1.valid = false) :
    (payment_callback secret rCb rVp rSave sOk vNet gw params tok now gate
        ledger vlog tokens).ledger = ledger
    ∧ (payment_callback secret rCb rVp rSave sOk vNet gw params tok now gate
        ledger vlog tokens).tokens = tokens := by
  rcases params with _ | ⟨pid, oid, sig⟩
  · exact ⟨rfl, rfl⟩
  · simp only [payment_callback]
    by_cases h1 : gate.contains pid = true
    · rw [if_pos h1]; exact ⟨rfl, rfl⟩
    · rw [if_neg h1]
      by_cases h2 : isPaymentAlreadyProcessed rCb ledger oid pid = true
      · rw [if_pos h2]; exact ⟨rfl, rfl⟩
      · rw [if_neg h2]
        by_cases h3 : (!vNet) = true
        · rw [if_pos h3]; exact ⟨rfl, rfl⟩
        · rw [if_neg h3]
          by_cases h4 : ((verify_payment secret rVp sOk gw oid pid sig ledger vlog).1.httpStatus != 200) = true
          · rw [if_pos h4]; exact ⟨rfl, rfl⟩
          · rw [if_neg h4]
            by_cases h5 : (!(verify_payment secret rVp sOk gw oid pid sig ledger vlog).1.valid) = true
            · rw [if_pos h5]; exact ⟨rfl, rfl⟩
            · exact absurd (hval oid pid sig) (by simpa using h5)

/-- A callback that passes the parameter check, the gate and the duplicate
check reduces to the internal verification call followed by the
commit-and-mint step, with the gate restored on every path. -/
theorem payment_callback_open (secret : String) (rCb rVp rSave sOk : Bool)
    (gw : Except Unit GatewayPayment) (pid oid sig : String)
    (tok : String) (now : Nat) (gate : Gate) (ledger : Ledger) (vlog : VLog)
    (tokens : TokenStore)
    (h1 : gate.contains pid = false)
    (h2 : isPaymentAlreadyProcessed rCb ledger oid pid = false) :
    payment_callback secret rCb rVp rSave sOk true gw (some (pid, oid, sig)) tok now gate
        ledger vlog tokens
      = (let vp := verify_payment secret rVp sOk gw oid pid sig ledger vlog
         if vp.1.httpStatus != 200 then ⟨.serverError, gate, ledger, vp.2, tokens⟩
         else if !vp.1.valid then ⟨.verificationFailed, gate, ledger, vp.2, tokens⟩
         else match vp.1.payment with
           | none => ⟨.serverError, gate, ledger, vp.2, tokens⟩
           | some pay =>
               ⟨.successRedirect tok, gate,
                saveTransaction rSave sOk ledger
                  ⟨oid, pid, TxStatus.SUCCESS, pay.amount / 100, pay.method⟩,
                vp.2,
                some (insertToken (tokens.getD []) tok
                  ⟨oid, pid, pay.amount / 100, now + 5 * 60 * 1000⟩)⟩) := by
  simp only [payment_callback]
  rw [if_neg (by simpa using h1), if_neg (by simp [h2])]
  simp only [Bool.not_true, Bool.false_eq_true, if_false, List.erase_cons_head]

/-- Deleting a token removes it from the lookup. -/
theorem lookupToken_erase (m : TokenMap) (r : String) :
    lookupToken (eraseToken m r) r = none := by
  have hf : (eraseToken m r).find? (fun kv => kv.1 == r) = none := by
    rw [List.find?_eq_none]
    intro x hx
    have hne := (List.mem_filter.mp hx).2
    simpa using hne
  simp [lookupToken, hf]

/-! ## Claim theorems -/

/-- Claim C1, counterexample: a `saveTransaction` call with status SUCCESS for
a pair that already has a SUCCESS row is not always a no-op.  When the
duplicate-check call to the sink fails, `isPaymentAlreadyProcessed` catches
the error and returns `false` ("fail-safe: allow once"), so the insert
proceeds and the ledger ends up with two SUCCESS rows for the same
`(order_id, payment_id)`. -/
theorem spec_C1_counterexample :
    successExists [⟨"order_1", "pay_1", TxStatus.SUCCESS, 100, "upi"⟩] "order_1" "pay_1" = true
    ∧ saveTransaction false true [⟨"order_1", "pay_1", TxStatus.SUCCESS, 100, "upi"⟩]
        ⟨"order_1", "pay_1", TxStatus.SUCCESS, 100, "upi"⟩
        ≠ [⟨"order_1", "pay_1", TxStatus.SUCCESS, 100, "upi"⟩]
    ∧ countSuccessRows
        (saveTransaction false true [⟨"order_1", "pay_1", TxStatus.SUCCESS, 100, "upi"⟩]
          ⟨"order_1", "pay_1", TxStatus.SUCCESS, 100, "upi"⟩) "order_1" "pay_1" = 2 := by
  decide

/-- Claim C1, amended: provided the duplicate-check call to the sink
succeeds, every `saveTransaction` call with status SUCCESS for a pair that
already has a SUCCESS row is a no-op, and any `saveTransaction` call
preserves the at-most-one-SUCCESS-row invariant for every pair. -/
theorem spec_C1_amended :
    (∀ (sinkOk : Bool) (ledger : Ledger) (tx : Txn),
      tx.status = TxStatus.SUCCESS →
      successExists ledger tx.order_id tx.payment_id = true →
      saveTransaction true sinkOk ledger tx = ledger)
    ∧ (∀ (sinkOk : Bool) (ledger : Ledger) (tx : Txn) (o p : String),
      countSuccessRows ledger o p ≤ 1 →
      countSuccessRows (saveTransaction true sinkOk ledger tx) o p ≤ 1) := by
  constructor
  · intro sinkOk ledger tx h1 h2
    simp [saveTransaction, isPaymentAlreadyProcessed, h1, h2]
  · intro sinkOk ledger tx o p h
    unfold saveTransaction
    by_cases hc : (tx.status == TxStatus.SUCCESS
        && isPaymentAlreadyProcessed true ledger tx.order_id tx.payment_id) = true
    · simpa [hc] using h
    · simp only [hc, if_neg, logToGoogleSheet]
      cases sinkOk
      · simpa using h
      · by_cases ht : isSuccessFor o p tx = true
        · have hparts : (tx.order_id = o ∧ tx.payment_id = p) ∧ tx.status = TxStatus.SUCCESS := by
            simpa [isSuccessFor, Bool.and_eq_true, beq_iff_eq] using ht
          have hex : successExists ledger tx.order_id tx.payment_id = false := by
            by_contra hx
            simp only [Bool.not_eq_false] at hx
            apply hc
            simp [isPaymentAlreadyProcessed, hparts.2, hx]
          have hz : countSuccessRows ledger o p = 0 := by
            have h0 := countSuccessRows_eq_zero ledger tx.order_id tx.payment_id hex
            rwa [hparts.1.1, hparts.1.2] at h0
          simp [countSuccessRows_append, ht, hz]
        · simpa [countSuccessRows_append, ht] using h

/-- Witness for claim C1's amended theorem at a concrete ledger. -/
theorem spec_C1_witness :
    ((⟨"order_1", "pay_1", TxStatus.SUCCESS, 100, "upi"⟩ : Txn).status = TxStatus.SUCCESS
      ∧ successExists [⟨"order_1", "pay_1", TxStatus.SUCCESS, 100, "upi"⟩] "order_1" "pay_1"
          = true)
    ∧ saveTransaction true true [⟨"order_1", "pay_1", TxStatus.SUCCESS, 100, "upi"⟩]
        ⟨"order_1", "pay_1", TxStatus.SUCCESS, 100, "upi"⟩
      = [⟨"order_1", "pay_1", TxStatus.SUCCESS, 100, "upi"⟩] :=
  ⟨⟨rfl, by decide⟩,
    spec_C1_amended.1 true [⟨"order_1", "pay_1", TxStatus.SUCCESS, 100, "upi"⟩]
      ⟨"order_1", "pay_1", TxStatus.SUCCESS, 100, "upi"⟩ rfl (by decide)⟩

/-- Claim C2: the signature verifier computes
`hex(HMAC_SHA256(secret, order_id + "|" + payment_id))` and is a
deterministic pure function; the signature-verification log entry written by
`/verify_payment` records a match exactly when this value equals the
received signature; and on the spec's concrete scenario the computed
signature equals the independently computed digest of
`HMAC_SHA256("s3cret", "order_1|pay_1")`. -/
theorem spec_C2_signature :
    (∀ secret oid pid : String,
      generatedSignature secret oid pid
        = bytesToHex (hmacSha256 (strBytes secret) (strBytes (oid ++ "|" ++ pid))))
    ∧ (∀ (secret oid pid sig : String) (gw : Except Unit GatewayPayment)
        (ledger : Ledger) (vlog : VLog), ∃ rest,
        (verify_payment secret false true gw oid pid sig ledger vlog).2
          = vlog ++ ⟨"SIGNATURE_VERIFICATION", oid, pid,
              some (generatedSignature secret oid pid == sig), none⟩ :: rest)
    ∧ generatedSignature "s3cret" "order_1" "pay_1"
        = "44422d618d76e6e81c5f002f4d5108385750b52eb8db4e9c7a4231ddfac02840" := by
  refine ⟨fun _ _ _ => rfl, ?_, generatedSignature_concrete⟩
  intro secret oid pid sig gw ledger vlog
  unfold verify_payment
  simp only [isPaymentAlreadyProcessed, saveVerificationLog, logToGoogleSheet,
    if_true, if_false, Bool.false_eq_true, ite_false]
  cases hm : generatedSignature secret oid pid == sig
  · exact ⟨[], by simp⟩
  · cases gw with
    | error e => exact ⟨[⟨"STATUS_API_ERROR", oid, pid, none, none⟩], by simp⟩
    | ok pay =>
        by_cases hs : pay.status != "captured"
        · exact ⟨[⟨"STATUS_API", oid, pid, none, some pay.status⟩], by simp [hs]⟩
        · exact ⟨[⟨"STATUS_API", oid, pid, none, some pay.status⟩], by simp [hs]⟩

/-- Claim C3: when the gateway status inquiry answers with a status other
than `"captured"`, the attempt that reaches the inquiry ends with the
not-captured rejection, the verdict is never valid, and no transaction is
committed to the ledger by a callback carrying that gateway answer. -/
theorem spec_C3_not_captured :
    ∀ (secret : String) (remoteOk sinkOk : Bool) (pay : GatewayPayment)
      (oid pid sig : String) (ledger : Ledger) (vlog : VLog),
    pay.status ≠ "captured" →
    ((isPaymentAlreadyProcessed remoteOk ledger oid pid = false →
        generatedSignature secret oid pid = sig →
        (verify_payment secret remoteOk sinkOk (.ok pay) oid pid sig ledger vlog).1
          = notCapturedVerdict)
      ∧ (verify_payment secret remoteOk sinkOk (.ok pay) oid pid sig ledger vlog).1.valid = false
      ∧ ∀ (rCb rVp rSave sOk vNet : Bool) (params : Option (String × String × String))
          (tok : String) (now : Nat) (gate : Gate) (tokens : TokenStore),
          (payment_callback secret rCb rVp rSave sOk vNet (.ok pay) params tok now gate
              ledger vlog tokens).ledger = ledger) := by
  intro secret remoteOk sinkOk pay oid pid sig ledger vlog hstatus
  have hval : ∀ (rVp sOk : Bool) (o p g : String),
      (verify_payment secret rVp sOk (.ok pay) o p g ledger vlog).1.valid = false := by
    intro rVp sOk o p g
    by_contra hx
    have hvt : (verify_payment secret rVp sOk (.ok pay) o p g ledger vlog).1.valid = true := by
      simpa using hx
    obtain ⟨pay2, hgw, hcap, _⟩ :=
      verify_valid_captured secret rVp sOk (.ok pay) o p g ledger vlog hvt
    cases hgw
    exact hstatus hcap
  refine ⟨?_, hval remoteOk sinkOk oid pid sig, ?_⟩
  · intro hdup hsig
    have hm : (generatedSignature secret oid pid == sig) = true := by simp [hsig]
    simp [verify_payment, hdup, hm, hstatus]
  · intro rCb rVp rSave sOk vNet params tok now gate tokens
    exact (payment_callback_no_commit secret rCb rVp rSave sOk vNet (.ok pay) params tok now
      gate ledger vlog tokens (hval rVp sOk)).1

/-- Witness for claim C3's theorem on a concrete non-captured payment. -/
theorem spec_C3_witness :
    (("authorized" : String) ≠ "captured"
      ∧ isPaymentAlreadyProcessed true [] "order_1" "pay_1" = false)
    ∧ (verify_payment "s3cret" true true (.ok ⟨"authorized", 100, "upi"⟩) "order_1" "pay_1"
        "44422d618d76e6e81c5f002f4d5108385750b52eb8db4e9c7a4231ddfac02840" [] []).1
      = notCapturedVerdict :=
  ⟨⟨by decide, by decide⟩,
    (spec_C3_not_captured "s3cret" true true ⟨"authorized", 100, "upi"⟩ "order_1" "pay_1"
      "44422d618d76e6e81c5f002f4d5108385750b52eb8db4e9c7a4231ddfac02840" [] []
      (by decide)).1 (by decide) generatedSignature_concrete⟩

/-- Claim C4: when the gateway status inquiry throws, the attempt ends with
the 500 status-API-failure verdict, which differs from every rejection
verdict; a callback carrying that failure answers with a server error while
leaving the gate, the ledger and the token store unchanged; and a retry of
the same inputs against a recovered gateway reaches the valid verdict. -/
theorem spec_C4_upstream_failure :
    ∀ (secret : String) (remoteOk sinkOk : Bool) (oid pid sig : String)
      (ledger : Ledger) (vlog : VLog),
    isPaymentAlreadyProcessed remoteOk ledger oid pid = false →
    generatedSignature secret oid pid = sig →
    ((verify_payment secret remoteOk sinkOk (.error ()) oid pid sig ledger vlog).1
        = statusFailedVerdict
      ∧ (statusFailedVerdict ≠ dupVerdict ∧ statusFailedVerdict ≠ mismatchVerdict
          ∧ statusFailedVerdict ≠ notCapturedVerdict)
      ∧ (∀ (rCb rSave vNet : Bool) (tok : String) (now : Nat) (gate : Gate)
          (tokens : TokenStore),
          gate.contains pid = false →
          isPaymentAlreadyProcessed rCb ledger oid pid = false →
          payment_callback secret rCb remoteOk rSave sinkOk vNet (.error ())
              (some (pid, oid, sig)) tok now gate ledger vlog tokens
            = ⟨.serverError, gate, ledger,
               (if vNet then
                  (verify_payment secret remoteOk sinkOk (.error ()) oid pid sig ledger vlog).2
                else vlog), tokens⟩)
      ∧ (∀ (pay : GatewayPayment) (vlog2 : VLog), pay.status = "captured" →
          (verify_payment secret remoteOk sinkOk (.ok pay) oid pid sig ledger vlog2).1
            = ⟨200, true, none, some pay⟩)) := by
  intro secret remoteOk sinkOk oid pid sig ledger vlog hdup hsig
  have hm : (generatedSignature secret oid pid == sig) = true := by simp [hsig]
  have herr : verify_payment secret remoteOk sinkOk (.error ()) oid pid sig ledger vlog
      = (statusFailedVerdict,
         saveVerificationLog sinkOk
           (saveVerificationLog sinkOk vlog
             ⟨"SIGNATURE_VERIFICATION", oid, pid, some true, none⟩)
           ⟨"STATUS_API_ERROR", oid, pid, none, none⟩) := by
    simp [verify_payment, hdup, hm]
  refine ⟨by rw [herr], by refine ⟨by decide, by decide, by decide⟩, ?_, ?_⟩
  · intro rCb rSave vNet tok now gate tokens hgate hdup2
    cases vNet
    · simp only [payment_callback, List.erase_cons_head]
      rw [if_neg (by simpa using hgate), if_neg (by simp [hdup2])]
      simp
    · rw [payment_callback_open secret rCb remoteOk rSave sinkOk (.error ()) pid oid sig
        tok now gate ledger vlog tokens hgate hdup2]
      simp [herr, statusFailedVerdict]
  · intro pay vlog2 hcap
    simp [verify_payment, hdup, hm, hcap]

/-- Witness for claim C4's theorem on a concrete upstream failure. -/
theorem spec_C4_witness :
    (isPaymentAlreadyProcessed true [] "order_1" "pay_1" = false
      ∧ generatedSignature "s3cret" "order_1" "pay_1"
          = "44422d618d76e6e81c5f002f4d5108385750b52eb8db4e9c7a4231ddfac02840")
    ∧ (verify_payment "s3cret" true true (.error ()) "order_1" "pay_1"
        "44422d618d76e6e81c5f002f4d5108385750b52eb8db4e9c7a4231ddfac02840" [] []).1
      = statusFailedVerdict
    ∧ (verify_payment "s3cret" true true (.ok ⟨"captured", 100, "upi"⟩) "order_1" "pay_1"
        "44422d618d76e6e81c5f002f4d5108385750b52eb8db4e9c7a4231ddfac02840" [] []).1
      = ⟨200, true, none, some ⟨"captured", 100, "upi"⟩⟩ :=
  ⟨⟨by decide, generatedSignature_concrete⟩,
   (spec_C4_upstream_failure "s3cret" true true "order_1" "pay_1"
      "44422d618d76e6e81c5f002f4d5108385750b52eb8db4e9c7a4231ddfac02840" [] []
      (by decide) generatedSignature_concrete).1,
   (spec_C4_upstream_failure "s3cret" true true "order_1" "pay_1"
      "44422d618d76e6e81c5f002f4d5108385750b52eb8db4e9c7a4231ddfac02840" [] []
      (by decide) generatedSignature_concrete).2.2.2 ⟨"captured", 100, "upi"⟩ [] rfl⟩

/-- Claim C5, counterexample: not every inbound attempt persists an audit
log entry before the handler answers.  A `/verify_payment` attempt whose
pair is already processed answers the duplicate verdict with the
verification log unchanged (even with the sink up), and the callback's
missing-parameter, gate-blocked and duplicate paths likewise persist
nothing. -/
theorem spec_C5_counterexample :
    (verify_payment "s3cret" true true (.error ()) "order_1" "pay_1" "x"
        [⟨"order_1", "pay_1", TxStatus.SUCCESS, 100, "upi"⟩] []
      = (dupVerdict, []))
    ∧ payment_callback "s3cret" true true true true true (.error ()) none "tok" 0 [] [] [] none
      = ⟨.missingParams, [], [], [], none⟩
    ∧ payment_callback "s3cret" true true true true true (.error ())
        (some ("pay_1", "order_1", "x")) "tok" 0 ["pay_1"] [] [] none
      = ⟨.duplicateBlocked, ["pay_1"], [], [], none⟩
    ∧ payment_callback "s3cret" true true true true true (.error ())
        (some ("pay_1", "order_1", "x"))
        "tok" 0 [] [⟨"order_1", "pay_1", TxStatus.SUCCESS, 100, "upi"⟩] [] none
      = ⟨.duplicateIgnored, [], [⟨"order_1", "pay_1", TxStatus.SUCCESS, 100, "upi"⟩], [], none⟩ := by
  refine ⟨by simp [verify_payment, isPaymentAlreadyProcessed, successExists, isSuccessFor,
    dupVerdict], by rfl, ?_, ?_⟩
  · simp [payment_callback]
  · simp [payment_callback, isPaymentAlreadyProcessed, successExists, isSuccessFor]

/-- Claim C5, amended: every `/verify_payment` attempt that passes the
idempotency pre-check appends at least one audit log entry (the
signature-verification row) before the handler answers, whatever the
verdict, when the audit sink accepts writes; duplicate-verdict attempts and
the callback's early exits persist nothing. -/
theorem spec_C5_amended :
    ∀ (secret : String) (remoteOk : Bool) (gw : Except Unit GatewayPayment)
      (oid pid sig : String) (ledger : Ledger) (vlog : VLog),
    isPaymentAlreadyProcessed remoteOk ledger oid pid = false →
    vlog.length < ((verify_payment secret remoteOk true gw oid pid sig ledger vlog).2).length := by
  intro secret remoteOk gw oid pid sig ledger vlog h
  simp only [verify_payment, saveVerificationLog, logToGoogleSheet, if_true]
  rw [if_neg (by simp [h])]
  cases hm : generatedSignature secret oid pid == sig
  · simp
  · cases gw with
    | error e => simp
    | ok pay =>
        by_cases hs : pay.status != "captured" <;> simp [hs]

/-- Witness for claim C5's amended theorem on a concrete fresh ledger. -/
theorem spec_C5_witness :
    isPaymentAlreadyProcessed true [] "order_1" "pay_1" = false
    ∧ (List.length ([] : VLog))
        < ((verify_payment "s3cret" true true (.error ()) "order_1" "pay_1" "x" [] []).2).length :=
  ⟨by decide,
   spec_C5_amended "s3cret" true (.error ()) "order_1" "pay_1" "x" [] [] (by decide)⟩

/-- Claim C6, counterexample: a success verdict is not withheld when the
durable commit fails.  With the audit sink down (`sinkOk = false`) the
SUCCESS row is silently dropped by `logToGoogleSheet`'s catch, yet the
callback still answers the success redirect and mints a token: the verdict
is never downgraded to an error. -/
theorem spec_C6_counterexample :
    (payment_callback "s3cret" true true true false true
        (.ok ⟨"captured", 100, "upi"⟩)
        (some ("pay_1", "order_1",
          "44422d618d76e6e81c5f002f4d5108385750b52eb8db4e9c7a4231ddfac02840"))
        "tok1" 0 [] [] [] none).response
      = .successRedirect "tok1"
    ∧ (payment_callback "s3cret" true true true false true
        (.ok ⟨"captured", 100, "upi"⟩)
        (some ("pay_1", "order_1",
          "44422d618d76e6e81c5f002f4d5108385750b52eb8db4e9c7a4231ddfac02840"))
        "tok1" 0 [] [] [] none).ledger = [] := by
  have hm : (generatedSignature "s3cret" "order_1" "pay_1"
      == "44422d618d76e6e81c5f002f4d5108385750b52eb8db4e9c7a4231ddfac02840") = true := by
    rw [generatedSignature_concrete]
    simp
  have hv : verify_payment "s3cret" true false (.ok ⟨"captured", 100, "upi"⟩)
      "order_1" "pay_1" "44422d618d76e6e81c5f002f4d5108385750b52eb8db4e9c7a4231ddfac02840" [] []
      = (⟨200, true, none, some ⟨"captured", 100, "upi"⟩⟩, []) := by
    simp [verify_payment, isPaymentAlreadyProcessed, successExists, hm,
      saveVerificationLog, logToGoogleSheet]
  rw [payment_callback_open "s3cret" true true true false (.ok ⟨"captured", 100, "upi"⟩)
    "pay_1" "order_1" "44422d618d76e6e81c5f002f4d5108385750b52eb8db4e9c7a4231ddfac02840"
    "tok1" 0 [] [] [] none (by decide) (by decide)]
  constructor
  · simp [hv]
  · simp [hv, saveTransaction, isPaymentAlreadyProcessed, successExists, logToGoogleSheet]

/-- Claim C6, amended: the callback's verdict is independent of whether the
durable write through the audit sink succeeds — a failed SUCCESS commit is
swallowed and the attempt is still reported exactly as it would be with the
commit durable, rather than being downgraded to an error. -/
theorem spec_C6_amended :
    ∀ (secret : String) (rCb rVp rSave vNet s1 s2 : Bool) (gw : Except Unit GatewayPayment)
      (params : Option (String × String × String)) (tok : String) (now : Nat)
      (gate : Gate) (ledger : Ledger) (vlog : VLog) (tokens : TokenStore),
    (payment_callback secret rCb rVp rSave s1 vNet gw params tok now gate
        ledger vlog tokens).response
      = (payment_callback secret rCb rVp rSave s2 vNet gw params tok now gate
        ledger vlog tokens).response := by
  intro secret rCb rVp rSave vNet s1 s2 gw params tok now gate ledger vlog tokens
  rcases params with _ | ⟨pid, oid, sig⟩
  · rfl
  · simp only [payment_callback]
    by_cases h1 : gate.contains pid = true
    · rw [if_pos h1, if_pos h1]
    · rw [if_neg h1, if_neg h1]
      by_cases h2 : isPaymentAlreadyProcessed rCb ledger oid pid = true
      · rw [if_pos h2, if_pos h2]
      · rw [if_neg h2, if_neg h2]
        cases vNet
        · simp
        · simp only [Bool.not_true, Bool.false_eq_true, if_false]
          have hfst := verify_fst_congr secret rVp s1 s2 gw oid pid sig ledger vlog vlog
          rw [hfst]
          by_cases h4 : ((verify_payment secret rVp s2 gw oid pid sig ledger vlog).1.httpStatus != 200) = true
          · rw [if_pos h4, if_pos h4]
          · rw [if_neg h4, if_neg h4]
            by_cases h5 : (!(verify_payment secret rVp s2 gw oid pid sig ledger vlog).1.valid) = true
            · rw [if_pos h5, if_pos h5]
            · rw [if_neg h5, if_neg h5]
              cases hp : (verify_payment secret rVp s2 gw oid pid sig ledger vlog).1.payment
              · simp only [hp]
              · simp only [hp]

/-- Claim C7: an attempt whose pair the idempotency ledger reports as
already processed ends with the terminal duplicate verdict on both entry
points — distinct from every rejection verdict — leaving every piece of
state unchanged, and on the callback path the gate is released. -/
theorem spec_C7_duplicate :
    ∀ (secret : String) (remoteOk sinkOk : Bool) (gw : Except Unit GatewayPayment)
      (oid pid sig : String) (ledger : Ledger) (vlog : VLog),
    isPaymentAlreadyProcessed remoteOk ledger oid pid = true →
    (verify_payment secret remoteOk sinkOk gw oid pid sig ledger vlog = (dupVerdict, vlog)
      ∧ (dupVerdict ≠ mismatchVerdict ∧ dupVerdict ≠ notCapturedVerdict
          ∧ dupVerdict ≠ statusFailedVerdict)
      ∧ ∀ (rVp rSave vNet : Bool) (tok : String) (now : Nat) (gate : Gate)
          (tokens : TokenStore),
          gate.contains pid = false →
          payment_callback secret remoteOk rVp rSave sinkOk vNet gw (some (pid, oid, sig))
              tok now gate ledger vlog tokens
            = ⟨.duplicateIgnored, gate, ledger, vlog, tokens⟩) := by
  intro secret remoteOk sinkOk gw oid pid sig ledger vlog hdup
  refine ⟨by simp [verify_payment, hdup], ⟨by decide, by decide, by decide⟩, ?_⟩
  intro rVp rSave vNet tok now gate tokens hgate
  simp only [payment_callback, List.erase_cons_head]
  rw [if_neg (by simpa using hgate), if_pos hdup]

/-- Witness for claim C7's theorem on a concrete processed pair. -/
theorem spec_C7_witness :
    (isPaymentAlreadyProcessed true [⟨"order_1", "pay_1", TxStatus.SUCCESS, 100, "upi"⟩]
        "order_1" "pay_1" = true
      ∧ List.contains ([] : Gate) "pay_1" = false)
    ∧ verify_payment "s3cret" true true (.error ()) "order_1" "pay_1" "x"
        [⟨"order_1", "pay_1", TxStatus.SUCCESS, 100, "upi"⟩] []
      = (dupVerdict, [])
    ∧ payment_callback "s3cret" true true true true true (.error ())
        (some ("pay_1", "order_1", "x")) "tokA" 7 []
        [⟨"order_1", "pay_1", TxStatus.SUCCESS, 100, "upi"⟩] [] none
      = ⟨.duplicateIgnored, [], [⟨"order_1", "pay_1", TxStatus.SUCCESS, 100, "upi"⟩], [], none⟩ :=
  ⟨⟨by decide, by decide⟩,
   (spec_C7_duplicate "s3cret" true true (.error ()) "order_1" "pay_1" "x"
      [⟨"order_1", "pay_1", TxStatus.SUCCESS, 100, "upi"⟩] [] (by decide)).1,
   (spec_C7_duplicate "s3cret" true true (.error ()) "order_1" "pay_1" "x"
      [⟨"order_1", "pay_1", TxStatus.SUCCESS, 100, "upi"⟩] [] (by decide)).2.2
      true true true "tokA" 7 [] none (by decide)⟩

/-- Claim C8: while one attempt holds the gate on a payment id, a second
callback for the same id answers the 409 duplicate-blocked response without
touching the holder's lock; and an attempt that acquires the gate has the
id removed again on every terminal path, so the gate is exactly restored
after the attempt finishes. -/
theorem spec_C8_gate_discipline :
    ∀ (secret : String) (rCb rVp rSave sOk vNet : Bool) (gw : Except Unit GatewayPayment)
      (oid pid sig tok : String) (now : Nat) (gate : Gate) (ledger : Ledger)
      (vlog : VLog) (tokens : TokenStore),
    (gate.contains pid = true →
      payment_callback secret rCb rVp rSave sOk vNet gw (some (pid, oid, sig)) tok now gate
          ledger vlog tokens
        = ⟨.duplicateBlocked, gate, ledger, vlog, tokens⟩)
    ∧ (gate.contains pid = false →
      ((payment_callback secret rCb rVp rSave sOk vNet gw (some (pid, oid, sig)) tok now gate
          ledger vlog tokens).gate = gate
        ∧ ((payment_callback secret rCb rVp rSave sOk vNet gw (some (pid, oid, sig)) tok now
          gate ledger vlog tokens).gate).contains pid = false)) := by
  intro secret rCb rVp rSave sOk vNet gw oid pid sig tok now gate ledger vlog tokens
  constructor
  · intro h
    simp only [payment_callback]
    rw [if_pos h]
  · intro h
    have hg : (payment_callback secret rCb rVp rSave sOk vNet gw (some (pid, oid, sig)) tok
        now gate ledger vlog tokens).gate = gate := by
      simp only [payment_callback, List.erase_cons_head]
      rw [if_neg (by simpa using h)]
      by_cases h2 : isPaymentAlreadyProcessed rCb ledger oid pid = true
      · rw [if_pos h2]
      · rw [if_neg h2]
        by_cases h3 : (!vNet) = true
        · rw [if_pos h3]
        · rw [if_neg h3]
          by_cases h4 : ((verify_payment secret rVp sOk gw oid pid sig ledger vlog).1.httpStatus != 200) = true
          · rw [if_pos h4]
          · rw [if_neg h4]
            by_cases h5 : (!(verify_payment secret rVp sOk gw oid pid sig ledger vlog).1.valid) = true
            · rw [if_pos h5]
            · rw [if_neg h5]
              cases hp : (verify_payment secret rVp sOk gw oid pid sig ledger vlog).1.payment
              · simp only [hp]
              · simp only [hp]
    exact ⟨hg, by rw [hg]; exact h⟩

/-- Witness for claim C8's theorem on a held and on a free gate. -/
theorem spec_C8_witness :
    (List.contains ["pay_1"] "pay_1" = true
      ∧ payment_callback "s3cret" true true true true true (.error ())
          (some ("pay_1", "order_1", "x")) "tokB" 3 ["pay_1"] [] [] none
        = ⟨.duplicateBlocked, ["pay_1"], [], [], none⟩)
    ∧ (List.contains ([] : Gate) "pay_1" = false
      ∧ (payment_callback "s3cret" true true true true true (.error ())
          (some ("pay_1", "order_1", "x")) "tokB" 3 [] [] [] none).gate = []) :=
  ⟨⟨by decide,
    (spec_C8_gate_discipline "s3cret" true true true true true (.error ()) "order_1" "pay_1"
      "x" "tokB" 3 ["pay_1"] [] [] none).1 (by decide)⟩,
   ⟨by decide,
    ((spec_C8_gate_discipline "s3cret" true true true true true (.error ()) "order_1" "pay_1"
      "x" "tokB" 3 [] [] [] none).2 (by decide)).1⟩⟩

/-- Claim C9: redeeming an existing, unexpired token answers its stored
`(order_id, payment_id, amount)` and deletes the mapping; redeeming an
existing token past its expiry answers not-found and also deletes the
mapping; and once the mapping is deleted every further redemption of the
token answers not-found with the store unchanged. -/
theorem spec_C9_single_use :
    ∀ (m : TokenMap) (r : String) (d : TokenData) (now : Nat),
    lookupToken m r = some d → r ≠ "" →
    ((¬ d.expires < now →
        validate_success (some m) now (some r)
          = (.okData d.order_id d.payment_id d.amount, some (eraseToken m r)))
      ∧ (d.expires < now →
        validate_success (some m) now (some r) = (.notFound, some (eraseToken m r)))
      ∧ ∀ now2 : Nat, validate_success (some (eraseToken m r)) now2 (some r)
          = (.notFound, some (eraseToken m r))) := by
  intro m r d now h hr
  have hre : (r == "") = false := by simpa using hr
  refine ⟨?_, ?_, ?_⟩
  · intro hexp
    simp [validate_success, hre, h, hexp]
  · intro hexp
    simp [validate_success, hre, h, hexp]
  · intro now2
    simp [validate_success, hre, lookupToken_erase]

/-- Witness for claim C9's theorem on a concrete unexpired token. -/
theorem spec_C9_witness :
    (lookupToken [("tokC", ⟨"order_1", "pay_1", 10, 100⟩)] "tokC"
        = some (⟨"order_1", "pay_1", 10, 100⟩ : TokenData)
      ∧ ("tokC" : String) ≠ "" ∧ ¬ (100 : Nat) < 50)
    ∧ validate_success (some [("tokC", ⟨"order_1", "pay_1", 10, 100⟩)]) 50 (some "tokC")
        = (.okData "order_1" "pay_1" 10,
           some (eraseToken [("tokC", ⟨"order_1", "pay_1", 10, 100⟩)] "tokC")) :=
  ⟨⟨by decide, by decide, by decide⟩,
   (spec_C9_single_use [("tokC", ⟨"order_1", "pay_1", 10, 100⟩)] "tokC"
      ⟨"order_1", "pay_1", 10, 100⟩ 50 (by decide) (by decide)).1 (by decide)⟩

/-- Away from the inherited `Object.prototype` names, the faithful JS read
model of `/validate_success` coincides with the own-key model: same store
afterwards, and the answer is the own-key answer carried over. -/
theorem validate_success_js_agrees (m : TokenMap) (now : Nat) (r : String)
    (h : protoKeys.contains r = false) :
    validate_success_js (some m) now (some r)
      = ((match (validate_success (some m) now (some r)).1 with
          | .notFound => JsValidateResponse.notFound
          | .okData o p a => .okData o p a),
         (validate_success (some m) now (some r)).2) := by
  by_cases hre : (r == "") = true
  · simp [validate_success, validate_success_js, hre]
  · cases hl : lookupToken m r with
    | none =>
        have hmem : r ∉ protoKeys := by simpa using h
        simp [validate_success, validate_success_js, jsReadToken, hre, hl, hmem]
    | some d =>
        by_cases hexp : d.expires < now
          <;> simp [validate_success, validate_success_js, jsReadToken, hre, hl, hexp]

/-- Claim C10 (code bug): the missing-token guard
`!global.successTokens[ref]` passes for never-minted refs naming an
`Object.prototype` member.  Redeeming the never-minted ref `"toString"`
against an initialised store answers 200 `{valid: true}` with undefined
fields instead of the 403 not-found the claim (and the spec's
`redeem -> mapping | NotFound` contract) requires, though the store is
still left unchanged; a plain never-minted ref such as `"zz"` does answer
403 with the store unchanged. -/
theorem spec_C10_prototype_bug :
    (lookupToken [("tokC", ⟨"order_1", "pay_1", 10, 100⟩)] "toString" = none
      ∧ validate_success_js (some [("tokC", ⟨"order_1", "pay_1", 10, 100⟩)]) 5 (some "toString")
          = (.okUndefined, some [("tokC", ⟨"order_1", "pay_1", 10, 100⟩)])
      ∧ JsValidateResponse.okUndefined ≠ .notFound)
    ∧ validate_success_js (some [("tokC", ⟨"order_1", "pay_1", 10, 100⟩)]) 5 (some "zz")
        = (.notFound, some [("tokC", ⟨"order_1", "pay_1", 10, 100⟩)]) := by
  decide

end SF2
